import Mathlib

/-!
Verification of the single-screen todo application in
src/app/(tabs)/index.tsx against its natural-language specification.

The component is shallowly embedded: local React state becomes the
structure HomeState, each handler becomes a pure function from the
state and the environment (backend success flag, dialog choice, clock)
to the next state together with the list of observable effects it
issues (backend calls, alerts, dialogs, console logs).
-/

namespace TodoApp

/-- Stored fields of a todo document, exactly the payload passed to
addDoc in createTodo: text, completed, createdAt.  There is no id
field here: the identifier is assigned by the backend, mirrored by the
freshId argument of applyAddDoc. -/
structure DocFields where
  text : String
  completed : Bool
  createdAt : Nat
deriving DecidableEq, Repr

/-- A document as delivered by a query snapshot: backend-assigned id
plus the stored fields (doc.id and doc.data()). -/
structure SnapshotDoc where
  id : String
  data : DocFields
deriving DecidableEq, Repr

/-- The Todo interface of the source: id, text, completed, createdAt. -/
structure Todo where
  id : String
  text : String
  completed : Bool
  createdAt : Nat
deriving DecidableEq, Repr

/-- The mapping applied to each snapshot document in the onSnapshot
callback: the object literal with id := doc.id spread with doc.data(). -/
def docToTodo (d : SnapshotDoc) : Todo :=
  { id := d.id
    text := d.data.text
    completed := d.data.completed
    createdAt := d.data.createdAt }

/-- The local React state of HomeScreen: todos, inputText, loading. -/
structure HomeState where
  todos : List Todo
  inputText : String
  loading : Bool
deriving DecidableEq, Repr

/-- Observable effects issued by the handlers: calls into the external
store or auth provider, user-facing alerts, confirmation dialogs, and
console logging. -/
inductive Effect where
  | addDocCall (fields : DocFields)
  | updateDocCompleted (id : String) (completed : Bool)
  | deleteDocCall (id : String)
  | logoutCall
  | alert (title message : String)
  | confirmDialog (title message : String)
  | consoleError (context : String)
deriving DecidableEq, Repr

/-- Calls that reach the external store or the auth provider. -/
def Effect.isBackendCall : Effect → Bool
  | .addDocCall _ => true
  | .updateDocCompleted _ _ => true
  | .deleteDocCall _ => true
  | .logoutCall => true
  | _ => false

/-- Modal alerts shown with Alert.alert and no button list. -/
def Effect.isAlert : Effect → Bool
  | .alert _ _ => true
  | _ => false

/-- Number of backend calls in an effect list. -/
def backendCallCount (es : List Effect) : Nat :=
  (es.filter Effect.isBackendCall).length

/-- The trim applied to the input text, modelling the JavaScript
String.prototype.trim call of the source: leading and trailing
whitespace removed. -/
def jsTrim (s : String) : String :=
  String.mk
    (((s.data.dropWhile Char.isWhitespace).reverse.dropWhile
        Char.isWhitespace).reverse)

/-- The success callback of onSnapshot: setTodos with the mapped
snapshot documents, then setLoading false.  It issues no effects. -/
def onSnapshotNext (s : HomeState) (docs : List SnapshotDoc) : HomeState :=
  { s with todos := docs.map docToTodo, loading := false }

/-- The error callback of onSnapshot: console.error, an error alert,
and setLoading false. -/
def onSnapshotError (s : HomeState) : HomeState × List Effect :=
  ({ s with loading := false },
   [Effect.consoleError "Error fetching todos:",
    Effect.alert "Error" "Failed to load todos"])

/-- createTodo.  A blank (whitespace-only) input is rejected with an
alert and no backend call.  Otherwise an addDoc call with the trimmed
text, completed false and the current client time is issued; on success
the input is cleared, on failure (addDocOk = false) the input is kept
and an error alert is shown after the console log. -/
def createTodo (s : HomeState) (now : Nat) (addDocOk : Bool) :
    HomeState × List Effect :=
  if jsTrim s.inputText = "" then
    (s, [Effect.alert "Error" "Please enter a todo item"])
  else
    let fields : DocFields :=
      { text := jsTrim s.inputText, completed := false, createdAt := now }
    if addDocOk then
      ({ s with inputText := "" }, [Effect.addDocCall fields])
    else
      (s, [Effect.addDocCall fields,
           Effect.consoleError "Error adding todo:",
           Effect.alert "Error" "Failed to add todo"])

/-- toggleTodo: one updateDoc call setting completed to the negation of
the passed value; on failure a console log and an error alert.  The
body contains no state setter, so the local state is returned
unchanged. -/
def toggleTodo (s : HomeState) (id : String) (completed : Bool)
    (updateOk : Bool) : HomeState × List Effect :=
  if updateOk then
    (s, [Effect.updateDocCompleted id (!completed)])
  else
    (s, [Effect.updateDocCompleted id (!completed),
         Effect.consoleError "Error updating todo:",
         Effect.alert "Error" "Failed to update todo"])

/-- deleteTodo: first a confirmation dialog; only on the Delete choice
a deleteDoc call, with console log and error alert on failure.  No
state setter is called. -/
def deleteTodo (s : HomeState) (id : String) (confirm : Bool)
    (deleteOk : Bool) : HomeState × List Effect :=
  (s,
   Effect.confirmDialog "Delete Todo"
       "Are you sure you want to delete this todo?" ::
     if confirm then
       if deleteOk then [Effect.deleteDocCall id]
       else [Effect.deleteDocCall id,
             Effect.consoleError "Error deleting todo:",
             Effect.alert "Error" "Failed to delete todo"]
     else [])

/-- handleLogout: first a confirmation dialog; only on the Logout
choice the auth provider logout call, with console log and error alert
on failure.  No state setter is called. -/
def handleLogout (s : HomeState) (confirm : Bool) (logoutOk : Bool) :
    HomeState × List Effect :=
  (s,
   Effect.confirmDialog "Logout" "Are you sure you want to logout?" ::
     if confirm then
       if logoutOk then [Effect.logoutCall]
       else [Effect.logoutCall,
             Effect.consoleError "Error logging out:",
             Effect.alert "Error" "Logout failed"]
     else [])

/-- Backend semantics of addDoc: the store appends a document whose id
is chosen by the backend, not by the client payload. -/
def applyAddDoc (store : List SnapshotDoc) (fields : DocFields)
    (freshId : String) : List SnapshotDoc :=
  store ++ [{ id := freshId, data := fields }]

/-- Backend semantics of the partial update issued by toggleTodo: the
document with the given id gets the new completed value; every other
field and every other document is untouched. -/
def applyUpdateCompleted (store : List SnapshotDoc) (id : String)
    (c : Bool) : List SnapshotDoc :=
  store.map (fun d =>
    if d.id = id then { d with data := { d.data with completed := c } }
    else d)

/-- Resource events of the useEffect body: onSnapshot opens the live
subscription and returns unsubscribe, which the cleanup calls. -/
inductive ResourceEvent where
  | openSubscription
  | closeSubscription
deriving DecidableEq, Repr

/-- The useEffect body with empty dependency array, run once on mount:
it opens exactly one subscription and manages no other resource. -/
def useEffectMount : List ResourceEvent := [ResourceEvent.openSubscription]

/-- The useEffect cleanup, run on unmount: it calls unsubscribe. -/
def useEffectCleanup : List ResourceEvent := [ResourceEvent.closeSubscription]

/-- Net number of subscriptions held after a sequence of resource
events. -/
def netOpen (es : List ResourceEvent) : Int :=
  es.foldl
    (fun n e =>
      match e with
      | ResourceEvent.openSubscription => n + 1
      | ResourceEvent.closeSubscription => n - 1)
    0

/-- Sort direction of an orderBy clause. -/
inductive Direction where
  | asc
  | desc
deriving DecidableEq, Repr

/-- A query over a collection with a single orderBy clause. -/
structure QuerySpec where
  collectionName : String
  orderByField : String
  direction : Direction
deriving DecidableEq, Repr

/-- The query opened on mount:
query(todosCollection, orderBy("createdAt", "desc")). -/
def todosQuery : QuerySpec :=
  { collectionName := "todos"
    orderByField := "createdAt"
    direction := Direction.desc }

end TodoApp

namespace TodoApp

/-- C1: after every snapshot the todo state equals exactly the
snapshot documents mapped to id plus stored fields, and it does not
depend on the previous local state: nothing is retained, merged or
filtered. -/
theorem snapshot_is_pure_projection (s t : HomeState)
    (docs : List SnapshotDoc) :
    (onSnapshotNext s docs).todos = docs.map docToTodo ∧
    (onSnapshotNext s docs).todos = (onSnapshotNext t docs).todos := by
  constructor <;> rfl

/-- C2: every document written by createTodo carries exactly the
trimmed text, completed initialized to false, and the client-side
creation time; the payload has no identifier, and the id of the stored
document is the one chosen by the backend. -/
theorem createTodo_payload (s : HomeState) (now : Nat) (ok : Bool)
    (store : List SnapshotDoc) (freshId : String)
    (h : jsTrim s.inputText ≠ "") :
    (createTodo s now ok).2.filter Effect.isBackendCall =
      [Effect.addDocCall
        { text := jsTrim s.inputText, completed := false, createdAt := now }] ∧
    (applyAddDoc store
        { text := jsTrim s.inputText, completed := false, createdAt := now }
        freshId) =
      store ++ [{ id := freshId,
                  data := { text := jsTrim s.inputText, completed := false,
                            createdAt := now } }] := by
  refine ⟨?_, rfl⟩
  unfold createTodo
  rw [if_neg h]
  cases ok <;> simp [Effect.isBackendCall]

theorem createTodo_payload_witness :
    jsTrim " buy milk " ≠ "" ∧
    ((createTodo
        { todos := [], inputText := " buy milk ", loading := false } 7
        true).2.filter Effect.isBackendCall =
      [Effect.addDocCall
        { text := "buy milk", completed := false, createdAt := 7 }] ∧
    (applyAddDoc []
        { text := "buy milk", completed := false, createdAt := 7 }
        "k1") =
      [{ id := "k1",
         data := { text := "buy milk", completed := false,
                   createdAt := 7 } }]) :=
  ⟨by decide,
   createTodo_payload
     { todos := [], inputText := " buy milk ", loading := false } 7 true
     [] "k1" (by decide)⟩

/-- C3: toggleTodo issues exactly one backend call, the update that
sets completed to the negation of the passed value, and the backend
update leaves the id, text and createdAt of every document unchanged,
touching the completed flag of the targeted document only. -/
theorem toggleTodo_single_update_frame (s : HomeState) (id : String)
    (c ok : Bool) (store : List SnapshotDoc) :
    (toggleTodo s id c ok).2.filter Effect.isBackendCall =
      [Effect.updateDocCompleted id (!c)] ∧
    (∀ d, d ∈ store →
      ∃ d2, d2 ∈ applyUpdateCompleted store id (!c) ∧
        d2.id = d.id ∧ d2.data.text = d.data.text ∧
        d2.data.createdAt = d.data.createdAt ∧
        d2.data.completed =
          (if d.id = id then !c else d.data.completed)) := by
  constructor
  · unfold toggleTodo
    cases ok <;> simp [Effect.isBackendCall]
  · intro d hd
    refine ⟨if d.id = id
        then { d with data := { d.data with completed := !c } } else d,
      ?_, ?_⟩
    · unfold applyUpdateCompleted
      exact List.mem_map.mpr ⟨d, hd, rfl⟩
    · by_cases hid : d.id = id <;> simp [hid]

theorem toggleTodo_single_update_frame_witness :
    (({ id := "a",
        data := { text := "x", completed := false, createdAt := 3 } } :
          SnapshotDoc) ∈
        ([{ id := "a",
            data := { text := "x", completed := false, createdAt := 3 } },
          { id := "b",
            data := { text := "y", completed := true, createdAt := 5 } }] :
          List SnapshotDoc)) ∧
    (∃ d2, d2 ∈ applyUpdateCompleted
        [{ id := "a",
           data := { text := "x", completed := false, createdAt := 3 } },
         { id := "b",
           data := { text := "y", completed := true, createdAt := 5 } }]
        "a" (!false) ∧
      d2.id = "a" ∧ d2.data.text = "x" ∧ d2.data.createdAt = 3 ∧
      d2.data.completed = (if "a" = "a" then !false else false)) :=
  ⟨by decide,
   (toggleTodo_single_update_frame
      { todos := [], inputText := "", loading := true } "a" false true
      [{ id := "a",
         data := { text := "x", completed := false, createdAt := 3 } },
       { id := "b",
         data := { text := "y", completed := true, createdAt := 5 } }]).2
     { id := "a",
       data := { text := "x", completed := false, createdAt := 3 } }
     (by decide)⟩

/-- C4: every failure from the store or the auth provider — in the
subscription error callback, create, toggle, delete and logout — is
caught and surfaced as exactly one modal alert; the handlers stay
total (no propagation), and the failure effect lists contain the one
fixed alert, with no classification or escalation. -/
theorem failures_surfaced_as_alerts (s : HomeState) (now : Nat)
    (id : String) (c : Bool) (h : jsTrim s.inputText ≠ "") :
    (onSnapshotError s).2.filter Effect.isAlert =
      [Effect.alert "Error" "Failed to load todos"] ∧
    (createTodo s now false).2.filter Effect.isAlert =
      [Effect.alert "Error" "Failed to add todo"] ∧
    (toggleTodo s id c false).2.filter Effect.isAlert =
      [Effect.alert "Error" "Failed to update todo"] ∧
    (deleteTodo s id true false).2.filter Effect.isAlert =
      [Effect.alert "Error" "Failed to delete todo"] ∧
    (handleLogout s true false).2.filter Effect.isAlert =
      [Effect.alert "Error" "Logout failed"] := by
  refine ⟨rfl, ?_, rfl, rfl, rfl⟩
  unfold createTodo
  rw [if_neg h]
  simp [Effect.isAlert]

theorem failures_surfaced_as_alerts_witness :
    jsTrim "call mom" ≠ "" ∧
    ((onSnapshotError
        { todos := [], inputText := "call mom", loading := false }).2.filter
          Effect.isAlert =
      [Effect.alert "Error" "Failed to load todos"] ∧
    (createTodo { todos := [], inputText := "call mom", loading := false }
        4 false).2.filter Effect.isAlert =
      [Effect.alert "Error" "Failed to add todo"] ∧
    (toggleTodo { todos := [], inputText := "call mom", loading := false }
        "a" true false).2.filter Effect.isAlert =
      [Effect.alert "Error" "Failed to update todo"] ∧
    (deleteTodo { todos := [], inputText := "call mom", loading := false }
        "a" true false).2.filter Effect.isAlert =
      [Effect.alert "Error" "Failed to delete todo"] ∧
    (handleLogout { todos := [], inputText := "call mom", loading := false }
        true false).2.filter Effect.isAlert =
      [Effect.alert "Error" "Logout failed"]) :=
  ⟨by decide,
   failures_surfaced_as_alerts
     { todos := [], inputText := "call mom", loading := false } 4 "a" true
     (by decide)⟩

/-- C5 counterexample: a whitespace-only input is rejected client-side
before any insert call — createTodo issues no backend call and only
the Please-enter alert, so it is not true that every input string is
forwarded to the store. -/
theorem createTodo_rejects_blank_input :
    (createTodo { todos := [], inputText := " ", loading := false } 0
        true).2 = [Effect.alert "Error" "Please enter a todo item"] ∧
    backendCallCount
      (createTodo { todos := [], inputText := " ", loading := false } 0
        true).2 = 0 := by
  constructor <;> decide

/-- C5 amended: for every input string whose trimmed form is nonempty,
createTodo forwards the trimmed text to the store with no further
content validation; the only client-side rejection is of inputs that
trim to the empty string. -/
theorem createTodo_no_content_validation (s : HomeState) (now : Nat)
    (ok : Bool) (h : jsTrim s.inputText ≠ "") :
    Effect.addDocCall
        { text := jsTrim s.inputText, completed := false,
          createdAt := now } ∈ (createTodo s now ok).2 := by
  unfold createTodo
  rw [if_neg h]
  cases ok <;> simp

theorem createTodo_no_content_validation_witness :
    jsTrim "@@@ any text at all !!!" ≠ "" ∧
    Effect.addDocCall
        { text := "@@@ any text at all !!!", completed := false,
          createdAt := 9 } ∈
      (createTodo
        { todos := [], inputText := "@@@ any text at all !!!",
          loading := false } 9 true).2 :=
  ⟨by decide,
   createTodo_no_content_validation
     { todos := [], inputText := "@@@ any text at all !!!",
       loading := false } 9 true (by decide)⟩

/-- C6: the mount effect opens exactly one subscription and nothing
else, the cleanup closes exactly one, a mounted component holds one
open subscription, and after a mount followed by the unmount cleanup
no subscription remains open. -/
theorem subscription_lifecycle :
    useEffectMount = [ResourceEvent.openSubscription] ∧
    useEffectCleanup = [ResourceEvent.closeSubscription] ∧
    netOpen [] = 0 ∧
    netOpen useEffectMount = 1 ∧
    netOpen (useEffectMount ++ useEffectCleanup) = 0 := by
  decide

/-- C7: each mutation handler issues at most one backend call per
invocation, and a failing invocation issues exactly the same backend
calls as a succeeding one — no retry; the extra effects of a failure
are only the log and the alert. -/
theorem mutations_fire_and_forget (s : HomeState) (now : Nat)
    (id : String) (c ok confirm : Bool) :
    backendCallCount (createTodo s now ok).2 ≤ 1 ∧
    backendCallCount (toggleTodo s id c ok).2 = 1 ∧
    backendCallCount (deleteTodo s id confirm ok).2 ≤ 1 ∧
    (createTodo s now false).2.filter Effect.isBackendCall =
      (createTodo s now true).2.filter Effect.isBackendCall ∧
    (toggleTodo s id c false).2.filter Effect.isBackendCall =
      (toggleTodo s id c true).2.filter Effect.isBackendCall ∧
    (deleteTodo s id confirm false).2.filter Effect.isBackendCall =
      (deleteTodo s id confirm true).2.filter Effect.isBackendCall := by
  refine ⟨?_, ?_, ?_, ?_, ?_, ?_⟩
  · unfold backendCallCount createTodo
    split
    · simp [Effect.isBackendCall]
    · cases ok <;> simp [Effect.isBackendCall]
  · unfold backendCallCount toggleTodo
    cases ok <;> simp [Effect.isBackendCall]
  · unfold backendCallCount deleteTodo
    cases confirm <;> cases ok <;> simp [Effect.isBackendCall]
  · unfold createTodo
    split
    · rfl
    · simp [Effect.isBackendCall]
  · unfold toggleTodo
    simp [Effect.isBackendCall]
  · unfold deleteTodo
    cases confirm <;> simp [Effect.isBackendCall]

/-- C8: with the Cancel choice, deleteTodo and handleLogout issue only
the confirmation dialog — no backend call — and leave the state
unchanged; in every invocation the dialog comes first, and the backend
call happens on the confirming choice. -/
theorem destructive_requires_confirmation (s : HomeState) (id : String)
    (ok : Bool) :
    deleteTodo s id false ok =
      (s, [Effect.confirmDialog "Delete Todo"
             "Are you sure you want to delete this todo?"]) ∧
    handleLogout s false ok =
      (s, [Effect.confirmDialog "Logout"
             "Are you sure you want to logout?"]) ∧
    (deleteTodo s id true ok).2.head? =
      some (Effect.confirmDialog "Delete Todo"
        "Are you sure you want to delete this todo?") ∧
    (handleLogout s true ok).2.head? =
      some (Effect.confirmDialog "Logout"
        "Are you sure you want to logout?") ∧
    Effect.deleteDocCall id ∈ (deleteTodo s id true ok).2 ∧
    Effect.logoutCall ∈ (handleLogout s true ok).2 := by
  unfold deleteTodo handleLogout
  cases ok <;> simp

/-- C9: createTodo clears the input only on a successful insert, keeps
it unchanged on a failed insert, and every text it writes is the
trimmed input, never the raw input. -/
theorem createTodo_input_atomicity (s : HomeState) (now : Nat)
    (h : jsTrim s.inputText ≠ "") :
    (createTodo s now true).1.inputText = "" ∧
    (createTodo s now false).1.inputText = s.inputText ∧
    ∀ f, Effect.addDocCall f ∈ (createTodo s now true).2 →
      f.text = jsTrim s.inputText := by
  unfold createTodo
  simp only [if_neg h]
  refine ⟨rfl, rfl, ?_⟩
  intro f hf
  simp at hf
  rw [hf]

theorem createTodo_input_atomicity_witness :
    jsTrim "  pay rent " ≠ "" ∧
    ((createTodo { todos := [], inputText := "  pay rent ", loading := false } 2 true).1.inputText = "" ∧
    (createTodo { todos := [], inputText := "  pay rent ", loading := false } 2 false).1.inputText = "  pay rent " ∧
    ∀ f, Effect.addDocCall f ∈
        (createTodo { todos := [], inputText := "  pay rent ", loading := false } 2 true).2 →
      f.text = jsTrim "  pay rent ") :=
  ⟨by decide,
   createTodo_input_atomicity
     { todos := [], inputText := "  pay rent ", loading := false } 2
     (by decide)⟩

/-- C10: the live query is opened ordered by createdAt descending, and
the snapshot callback preserves the snapshot order without client-side
re-sorting: whenever the delivered documents are sorted newest first,
the displayed todos are sorted newest first and are exactly the mapped
snapshot in snapshot order. -/
theorem snapshot_order_preserved (s : HomeState)
    (docs : List SnapshotDoc)
    (h : docs.Pairwise
      (fun a b => b.data.createdAt ≤ a.data.createdAt)) :
    todosQuery =
      { collectionName := "todos", orderByField := "createdAt",
        direction := Direction.desc } ∧
    (onSnapshotNext s docs).todos = docs.map docToTodo ∧
    (onSnapshotNext s docs).todos.Pairwise
      (fun a b => b.createdAt ≤ a.createdAt) := by
  refine ⟨rfl, rfl, ?_⟩
  unfold onSnapshotNext
  simp only [List.pairwise_map]
  exact h

theorem snapshot_order_preserved_witness :
    ([{ id := "n", data := { text := "new", completed := false, createdAt := 9 } },
      { id := "o", data := { text := "old", completed := true, createdAt := 2 } }] :
        List SnapshotDoc).Pairwise
      (fun a b => b.data.createdAt ≤ a.data.createdAt) ∧
    (onSnapshotNext { todos := [], inputText := "", loading := true }
        [{ id := "n", data := { text := "new", completed := false, createdAt := 9 } },
         { id := "o", data := { text := "old", completed := true, createdAt := 2 } }]).todos.Pairwise
      (fun a b => b.createdAt ≤ a.createdAt) :=
  ⟨by simp,
   (snapshot_order_preserved
      { todos := [], inputText := "", loading := true }
      [{ id := "n", data := { text := "new", completed := false, createdAt := 9 } },
       { id := "o", data := { text := "old", completed := true, createdAt := 2 } }]
      (by simp)).2.2⟩

end TodoApp
